import Mathlib

/-!
Verification development for scripts/reddit_scanner.py.

The script is a thin CLI over a Reddit API client: an opportunity scanner,
a reply executor, a warmup runner and a status reporter, sharing one
credential loader.  Each Python function is embedded below as a pure Lean
function; the external API client is modelled as an explicit behaviour
record (each remote call either returns data or raises, modelled with
Except / an optional raised message), and every operation additionally
returns the list of network calls it performed, so that freedom from
network mutation is provable.

Modelling conventions:
- Python string operations are implemented over List Char so that all
  definitions reduce in the kernel.  Char.toLower lowers only ASCII
  letters, matching Python str.lower on the ASCII range (all keyword
  data in the script is ASCII).
- Python float arithmetic appears only in the derived display fields
  age_hours and account_age_days (round((now - created)/3600, 1) etc.);
  these are modelled with integer division.  No specified property
  depends on their values.
- Python truthiness of optional strings (None or empty is falsy) is
  modelled by the function truthy.
-/

namespace RedditScanner

/-- Auxiliary: pre is a prefix of the first list (character-wise). -/
def charsStartsWith : List Char → List Char → Bool
  | _, [] => true
  | [], _ :: _ => false
  | c :: cs, d :: ds => c == d && charsStartsWith cs ds

/-- Auxiliary: needle occurs as a contiguous sublist of hay.
Models the Python substring test (needle in hay). -/
def charsContains (needle : List Char) : List Char → Bool
  | [] => needle.isEmpty
  | c :: cs => charsStartsWith (c :: cs) needle || charsContains needle cs

/-- Python: needle in hay (substring containment). -/
def strContains (hay needle : String) : Bool :=
  charsContains needle.data hay.data

/-- Python: s.lower(), on the ASCII range (see header comment). -/
def lowerStr (s : String) : String :=
  String.mk (s.data.map Char.toLower)

/-- Python: s[:n] (first n characters). -/
def strTake (s : String) (n : Nat) : String :=
  String.mk (s.data.take n)

/-- Python truthiness of an optional string: None and the empty string
are falsy. -/
def truthy : Option String → Bool
  | none => false
  | some s => !s.data.isEmpty

/-- Python: (opt or default) for optional strings. -/
def pyOrStr (o : Option String) (d : String) : String :=
  match o with
  | none => d
  | some s => if s.data.isEmpty then d else s

/-- Python: (opt or default) for optional lists: None and the empty list
are falsy and select the default. -/
def pyOrList (o : Option (List String)) (d : List String) : List String :=
  match o with
  | none => d
  | some l => if l.isEmpty then d else l

/-- The four environment variables read by get_reddit. -/
structure Env where
  client_id : Option String
  client_secret : Option String
  username : Option String
  password : Option String
deriving DecidableEq

/-- The praw.Reddit handle constructed by get_reddit: its keyword
arguments.  auth is the optional username/password pair. -/
structure RedditCfg where
  client_id : String
  client_secret : String
  user_agent : String
  auth : Option (String × String)
deriving DecidableEq

/-- get_reddit of the script: returns None when client id or secret is
falsy, otherwise the praw.Reddit handle with the constructed kwargs. -/
def get_reddit (env : Env) : Option RedditCfg :=
  if truthy env.client_id && truthy env.client_secret then
    some
      { client_id := (env.client_id.getD "")
        client_secret := (env.client_secret.getD "")
        user_agent :=
          "market_research_assistant:v1.0 (by /u/" ++ pyOrStr env.username "fishbig" ++ ")"
        auth :=
          if truthy env.username && truthy env.password then
            some (env.username.getD "", env.password.getD "")
          else none }
  else none

/-- DEFAULT_SUBS of the script. -/
def DEFAULT_SUBS : List String :=
  ["SideProject", "SaaS", "entrepreneur", "Automate",
   "smallbusiness", "startups", "webdev", "dataisbeautiful"]

/-- PAIN_KEYWORDS of the script. -/
def PAIN_KEYWORDS : List String :=
  ["is there a tool", "i need", "looking for", "anyone know",
   "does anyone", "how do i", "recommend", "alternative to",
   "automation", "ai tool", "workflow", "scraping", "monitoring",
   "competitor analysis", "market research", "price tracking",
   "data collection", "web scraping", "browser automation"]

/-- A post as delivered by the API client (the praw attributes the
script reads).  selftext is optional: praw may deliver None. -/
structure Post where
  id : String
  title : String
  selftext : Option String
  permalink : String
  score : Int
  num_comments : Int
  created_utc : Int
deriving DecidableEq

/-- The record dict the scanner emits per matching post. -/
structure PostRecord where
  id : String
  title : String
  body : String
  url : String
  subreddit : String
  score : Int
  num_comments : Int
  created_utc : Int
  age_hours : Int
  keywords_matched : List String
deriving DecidableEq

/-- An element of the scan result list: either a full post record or an
inline error dict (which has no created_utc key). -/
inductive ScanEntry where
  | post (r : PostRecord)
  | error (msg : String)
deriving DecidableEq

/-- Python: x.get("created_utc", 0) — post records carry the key, error
records default to 0. -/
def entryKey : ScanEntry → Int
  | .post r => r.created_utc
  | .error _ => 0

/-- Whether the entry carries a creation timestamp key at all. -/
def hasTimestamp : ScanEntry → Bool
  | .post _ => true
  | .error _ => false

/-- Sort relation of results.sort(key=..., reverse=True): descending by
entryKey. -/
def entryGE (a b : ScanEntry) : Prop := entryKey b ≤ entryKey a

instance : DecidableRel entryGE := fun _ _ => Int.decLe _ _

instance : IsTotal ScanEntry entryGE :=
  ⟨fun a b => Int.le_total (entryKey b) (entryKey a)⟩

instance : IsTrans ScanEntry entryGE :=
  ⟨fun _ _ _ hab hbc => le_trans hbc hab⟩

/-- Python list.sort(key=lambda x: x.get("created_utc", 0), reverse=True):
a stable non-increasing sort by the key; insertion sort with entryGE is
stable and non-increasing, and a stable sort by a key is unique, so this
is the exact Python semantics. -/
def sortByRecency (l : List ScanEntry) : List ScanEntry :=
  List.insertionSort entryGE l

/-- One network call against the remote service, for frame reasoning. -/
inductive NetCall where
  | fetchNew (sub : String) (limit : Nat)
  | fetchSubmission (post_id : String)
  | fetchMe
  | submitComment (post_id : String) (text : String)
  | fetchHot (sub : String) (limit : Nat)
deriving DecidableEq

/-- The only remote mutation the script can perform is submitting a
comment. -/
def NetCall.isMutation : NetCall → Bool
  | .submitComment _ _ => true
  | _ => false

/-- Behaviour of the API client during a scan: for each subreddit name
and limit, the posts delivered by subreddit.new(limit) before an
optional exception (the raised message) interrupts the listing.  now is
time.time(). -/
structure ScanBehavior where
  fetch_new : String → Nat → List Post × Option String
  now : Int

/-- Python: text = (post.title + " " + (post.selftext or "")).lower(). -/
def lowerText (p : Post) : String :=
  lowerStr (p.title ++ " " ++ (p.selftext.getD ""))

/-- Python: [kw for kw in kws if kw in text]. -/
def matchedKeywords (kws : List String) (p : Post) : List String :=
  kws.filter (fun kw => strContains (lowerText p) kw)

/-- The record dict appended for a matching post. -/
def mkRecord (now : Int) (sub_name : String) (p : Post) (matched : List String) :
    PostRecord :=
  { id := p.id
    title := p.title
    body := strTake (p.selftext.getD "") 800
    url := "https://reddit.com" ++ p.permalink
    subreddit := sub_name
    score := p.score
    num_comments := p.num_comments
    created_utc := p.created_utc
    age_hours := (now - p.created_utc) / 3600
    keywords_matched := matched }

/-- The inline error dict for a failed subreddit fetch. -/
def scanErrorMsg (sub_name e : String) : String :=
  "Failed to scan r/" ++ sub_name ++ ": " ++ e

/-- One iteration of the scan loop for a single subreddit: the matching
posts delivered before any exception, followed by the inline error entry
when an exception was raised (caught by the per-subreddit except). -/
def scanSub (b : ScanBehavior) (kws : List String) (limit : Nat) (sub_name : String) :
    List ScanEntry :=
  ((b.fetch_new sub_name limit).1.filterMap (fun p =>
      if (matchedKeywords kws p).isEmpty then none
      else some (ScanEntry.post (mkRecord b.now sub_name p (matchedKeywords kws p))))) ++
  (match (b.fetch_new sub_name limit).2 with
   | some e => [ScanEntry.error (scanErrorMsg sub_name e)]
   | none => [])

/-- scan_opportunities returns either the top-level unconfigured error
dict or the sorted result list. -/
inductive ScanOutput where
  | errObj (msg : String)
  | list (entries : List ScanEntry)
deriving DecidableEq

/-- The top-level unconfigured error message of scan_opportunities. -/
def scanUnconfiguredMsg : String :=
  "Reddit credentials not configured. Set REDDIT_CLIENT_ID and REDDIT_CLIENT_SECRET."

/-- scan_opportunities of the script, paired with its network trace. -/
def scan_opportunities (env : Env) (b : ScanBehavior)
    (subreddits keywords : Option (List String)) (limit : Nat) :
    ScanOutput × List NetCall :=
  match get_reddit env with
  | none => (ScanOutput.errObj scanUnconfiguredMsg, [])
  | some _ =>
    (ScanOutput.list
      (sortByRecency
        ((pyOrList subreddits DEFAULT_SUBS).flatMap
          (scanSub b (pyOrList keywords PAIN_KEYWORDS) limit))),
     (pyOrList subreddits DEFAULT_SUBS).map (fun s => NetCall.fetchNew s limit))

/-- The comment forest of a submission, as praw represents it: a
sequence of nodes, where a node is either a real comment (author, child
replies) or a MoreComments placeholder hiding an unfetched sub-forest.
Encoded as a single non-nested inductive (a cons-list with two node
kinds) so all recursions are structural.  An author is None for deleted
accounts (c.author is None in Python). -/
inductive CommentForest where
  | nil
  | commentCons (author : Option String) (replies rest : CommentForest)
  | moreCons (hidden rest : CommentForest)

/-- Authors visible after submission.comments.replace_more(limit=0)
followed by submission.comments.list(): replace_more with limit 0
removes every MoreComments placeholder without fetching it, and list()
flattens the remaining tree, so placeholder-hidden comments are absent. -/
def visibleAuthors : CommentForest → List (Option String)
  | CommentForest.nil => []
  | CommentForest.commentCons a rs t => a :: (visibleAuthors rs ++ visibleAuthors t)
  | CommentForest.moreCons _ t => visibleAuthors t

/-- Authors of the fully expanded tree (every MoreComments placeholder
resolved to its hidden sub-forest).  This is the reading in the claim
wording; the script does not compute it. -/
def fullAuthors : CommentForest → List (Option String)
  | CommentForest.nil => []
  | CommentForest.commentCons a rs t => a :: (fullAuthors rs ++ fullAuthors t)
  | CommentForest.moreCons h t => fullAuthors h ++ fullAuthors t

/-- The submission attributes the reply executor reads. -/
structure SubmissionData where
  title : String
  permalink : String
  comments : CommentForest

/-- Behaviour of the API client during reply_to_post: fetching the
submission may raise; reddit.user.me() may raise or return None (app is
not user-authenticated); submission.reply may raise or return the new
comment (id, permalink). -/
structure ReplyBehavior where
  submission : String → Except String SubmissionData
  me : Except String (Option String)
  submit : String → String → Except String (String × String)

/-- The tagged result dict of reply_to_post. -/
inductive ReplyResult where
  | skipped (reason : String)
  | dryRun (post_title post_url would_reply : String)
  | replied (post_id comment_id comment_url : String)
  | error (msg : String)
deriving DecidableEq

/-- Python: c.author and c.author.name == me.name (a None author is
falsy, so it never matches). -/
def authorIs (meName : String) (a : Option String) : Bool :=
  match a with
  | some n => n == meName
  | none => false

/-- reply_to_post of the script, paired with its network trace.
replace_more(limit=0) performs no network request, so it contributes no
trace entry. -/
def reply_to_post (env : Env) (b : ReplyBehavior) (post_id reply_text : String)
    (dry_run : Bool) : ReplyResult × List NetCall :=
  match get_reddit env with
  | none => (ReplyResult.error "Reddit credentials not configured.", [])
  | some _ =>
    match b.submission post_id with
    | Except.error e => (ReplyResult.error e, [NetCall.fetchSubmission post_id])
    | Except.ok sub =>
      match b.me with
      | Except.error e =>
        (ReplyResult.error e, [NetCall.fetchSubmission post_id, NetCall.fetchMe])
      | Except.ok meOpt =>
        if (match meOpt with
            | some meName => (visibleAuthors sub.comments).any (authorIs meName)
            | none => false) then
          (ReplyResult.skipped "already_replied",
           [NetCall.fetchSubmission post_id, NetCall.fetchMe])
        else if dry_run then
          (ReplyResult.dryRun sub.title ("https://reddit.com" ++ sub.permalink)
            (strTake reply_text 300),
           [NetCall.fetchSubmission post_id, NetCall.fetchMe])
        else
          match b.submit post_id reply_text with
          | Except.error e =>
            (ReplyResult.error e,
             [NetCall.fetchSubmission post_id, NetCall.fetchMe,
              NetCall.submitComment post_id reply_text])
          | Except.ok (cid, cperm) =>
            (ReplyResult.replied post_id cid ("https://reddit.com" ++ cperm),
             [NetCall.fetchSubmission post_id, NetCall.fetchMe,
              NetCall.submitComment post_id reply_text])

/-- The reply branch of the CLI dispatcher: argv is sys.argv in full
(argv[0] is the script path).  none models the paths that print a usage
error and exit 1, or a different subcommand.  dry_run is exactly the
absence of the --live token anywhere in sys.argv. -/
def cliReply (env : Env) (b : ReplyBehavior) (argv : List String) :
    Option (ReplyResult × List NetCall) :=
  if argv.getD 1 "" = "reply" then
    if argv.length < 4 then none
    else
      some (reply_to_post env b (argv.getD 2 "") (argv.getD 3 "")
        (!(argv.contains "--live")))
  else none

/-- The authenticated profile attributes read by warmup and status. -/
structure MeData where
  name : String
  link_karma : Int
  comment_karma : Int
  created_utc : Int
  has_verified_email : Bool
deriving DecidableEq

/-- A trending post as delivered by subreddit("all").hot(limit=5). -/
structure HotPost where
  title : String
  subreddit : String
  score : Int
deriving DecidableEq

/-- Behaviour of the API client during warmup_actions: user.me() may
raise or return None; the hot listing may raise.  now is time.time(). -/
structure WarmupBehavior where
  me : Except String (Option MeData)
  hot : Nat → Except String (List HotPost)
  now : Int

/-- The result dict of warmup_actions (hot_posts is only reported by
its length, hot_posts_browsed). -/
inductive WarmupResult where
  | ok (username : String) (karma : Int) (account_age_days : Int)
      (hot_posts_browsed : Nat) (suggestion : String)
  | error (msg : String)
deriving DecidableEq

/-- Low-karma suggestion string of warmup_actions. -/
def buildKarmaMsg : String :=
  "Comment on these posts with genuine value to build karma"

/-- High-karma suggestion string of warmup_actions. -/
def readyMsg : String := "Ready for targeted replies"

/-- Python: karma = me.link_karma + me.comment_karma if me else 0. -/
def warmupKarma (meOpt : Option MeData) : Int :=
  match meOpt with
  | some m => m.link_karma + m.comment_karma
  | none => 0

/-- warmup_actions of the script, paired with its network trace.
account_age_days is modelled with integer division (see header). -/
def warmup_actions (env : Env) (b : WarmupBehavior) :
    WarmupResult × List NetCall :=
  match get_reddit env with
  | none => (WarmupResult.error "Reddit credentials not configured.", [])
  | some _ =>
    match b.me with
    | Except.error e => (WarmupResult.error e, [NetCall.fetchMe])
    | Except.ok meOpt =>
      match b.hot 5 with
      | Except.error e =>
        (WarmupResult.error e, [NetCall.fetchMe, NetCall.fetchHot "all" 5])
      | Except.ok hp =>
        (WarmupResult.ok
          (match meOpt with | some m => m.name | none => "unknown")
          (warmupKarma meOpt)
          (match meOpt with | some m => (b.now - m.created_utc) / 86400 | none => 0)
          (hp.map (fun p => (strTake p.title 100, p.subreddit, p.score))).length
          (if warmupKarma meOpt < 100 then buildKarmaMsg else readyMsg),
         [NetCall.fetchMe, NetCall.fetchHot "all" 5])

/-- Behaviour of the API client during check_status. -/
structure StatusBehavior where
  me : Except String (Option MeData)
  now : Int

/-- The result dict of check_status. -/
inductive StatusResult where
  | ok (username : String) (link_karma comment_karma total_karma : Int)
      (account_age_days : Int) (is_verified : Bool) (ready_for_action : Bool)
  | error (msg : String)
deriving DecidableEq

/-- check_status reads me.name without a None guard, so a None profile
raises AttributeError inside the try, caught by the except.  This
constant models the CPython AttributeError message (its quote characters
are omitted here). -/
def noneTypeMsg : String := "NoneType object has no attribute name"

/-- check_status of the script, paired with its network trace.
account_age_days is modelled with integer division (see header). -/
def check_status (env : Env) (b : StatusBehavior) :
    StatusResult × List NetCall :=
  match get_reddit env with
  | none => (StatusResult.error "Reddit credentials not configured.", [])
  | some _ =>
    match b.me with
    | Except.error e => (StatusResult.error e, [NetCall.fetchMe])
    | Except.ok none => (StatusResult.error noneTypeMsg, [NetCall.fetchMe])
    | Except.ok (some m) =>
      (StatusResult.ok m.name m.link_karma m.comment_karma
        (m.link_karma + m.comment_karma)
        ((b.now - m.created_utc) / 86400)
        m.has_verified_email
        (decide (50 ≤ m.comment_karma)),
       [NetCall.fetchMe])

/-- A JSON value, the shape json.dumps serializes. -/
inductive Json where
  | str (s : String)
  | num (n : Int)
  | bool (b : Bool)
  | null
  | arr (xs : List Json)
  | obj (fields : List (String × Json))

/-- Serialization of a post record dict. -/
def PostRecord.toJson (r : PostRecord) : Json :=
  Json.obj
    [("id", Json.str r.id), ("title", Json.str r.title),
     ("body", Json.str r.body), ("url", Json.str r.url),
     ("subreddit", Json.str r.subreddit), ("score", Json.num r.score),
     ("num_comments", Json.num r.num_comments),
     ("created_utc", Json.num r.created_utc),
     ("age_hours", Json.num r.age_hours),
     ("keywords_matched", Json.arr (r.keywords_matched.map Json.str))]

/-- Serialization of a scan entry. -/
def ScanEntry.toJson : ScanEntry → Json
  | .post r => r.toJson
  | .error m => Json.obj [("error", Json.str m)]

/-- Serialization of the scan output. -/
def ScanOutput.toJson : ScanOutput → Json
  | .errObj m => Json.obj [("error", Json.str m)]
  | .list es => Json.arr (es.map ScanEntry.toJson)

/-- Serialization of a reply result. -/
def ReplyResult.toJson : ReplyResult → Json
  | .skipped r =>
    Json.obj [("status", Json.str "skipped"), ("reason", Json.str r)]
  | .dryRun t u w =>
    Json.obj [("status", Json.str "dry_run"), ("post_title", Json.str t),
      ("post_url", Json.str u), ("would_reply", Json.str w)]
  | .replied p c u =>
    Json.obj [("status", Json.str "replied"), ("post_id", Json.str p),
      ("comment_id", Json.str c), ("comment_url", Json.str u)]
  | .error m => Json.obj [("error", Json.str m)]

/-- Serialization of a warmup result. -/
def WarmupResult.toJson : WarmupResult → Json
  | .ok u k a h s =>
    Json.obj [("status", Json.str "ok"), ("username", Json.str u),
      ("karma", Json.num k), ("account_age_days", Json.num a),
      ("hot_posts_browsed", Json.num (Int.ofNat h)),
      ("suggestion", Json.str s)]
  | .error m => Json.obj [("error", Json.str m)]

/-- Serialization of a status result. -/
def StatusResult.toJson : StatusResult → Json
  | .ok u l c t a v r =>
    Json.obj [("username", Json.str u), ("link_karma", Json.num l),
      ("comment_karma", Json.num c), ("total_karma", Json.num t),
      ("account_age_days", Json.num a), ("is_verified", Json.bool v),
      ("ready_for_action", Json.bool r)]
  | .error m => Json.obj [("error", Json.str m)]

/-! Concrete environments and API behaviours used to instantiate the
theorems below. -/

/-- A fully configured environment. -/
def envC : Env := ⟨some "id", some "secret", some "user", some "pw"⟩

/-- The handle get_reddit constructs from envC. -/
def cfgC : RedditCfg :=
  ⟨"id", "secret", "market_research_assistant:v1.0 (by /u/user)",
   some ("user", "pw")⟩

/-- An environment with the client id absent. -/
def envMissing : Env := ⟨none, some "secret", some "user", some "pw"⟩

/-- A post whose lower-cased title-space-body is "i need ". -/
def postIneed : Post := ⟨"p1", "i need", none, "/r/s1/p1", 1, 0, 100⟩

/-- Scan behaviour: subreddit s1 delivers postIneed, others nothing. -/
def scanB1 : ScanBehavior :=
  ⟨fun s _ => if s = "s1" then ([postIneed], none) else ([], none), 1000⟩

/-- A matching post whose creation timestamp is exactly 0. -/
def postX : Post := ⟨"x1", "x", none, "/r/good/x1", 1, 0, 0⟩

/-- Scan behaviour: subreddit bad raises, subreddit good delivers postX. -/
def scanB5 : ScanBehavior :=
  ⟨fun s _ =>
    if s = "bad" then ([], some "boom")
    else if s = "good" then ([postX], none)
    else ([], none), 0⟩

/-- The record the scanner emits for postX under keyword list ["x"]. -/
def recX : PostRecord := mkRecord 0 "good" postX ["x"]

/-- The scan output entries for scanB5 over [bad, good] with keyword x. -/
def entriesW5 : List ScanEntry :=
  [ScanEntry.error (scanErrorMsg "bad" "boom"), ScanEntry.post recX]

/-- A submission whose only comment (by alice) hides behind a
MoreComments placeholder. -/
def hiddenSub : SubmissionData :=
  ⟨"T1", "/r/x/p1",
   CommentForest.moreCons
     (CommentForest.commentCons (some "alice") CommentForest.nil CommentForest.nil)
     CommentForest.nil⟩

/-- Reply behaviour for hiddenSub with alice authenticated. -/
def replyBHidden : ReplyBehavior :=
  ⟨fun _ => Except.ok hiddenSub, Except.ok (some "alice"),
   fun _ _ => Except.ok ("c1", "/r/x/c1")⟩

/-- A submission with a directly visible comment by alice. -/
def visSub : SubmissionData :=
  ⟨"T2", "/r/x/p2",
   CommentForest.commentCons (some "alice") CommentForest.nil CommentForest.nil⟩

/-- Reply behaviour for visSub with alice authenticated. -/
def replyBVis : ReplyBehavior :=
  ⟨fun _ => Except.ok visSub, Except.ok (some "alice"),
   fun _ _ => Except.ok ("c1", "/r/x/c1")⟩

/-- Reply behaviour with a read-only session (user.me() is None) and a
successful submission call. -/
def replyBLive : ReplyBehavior :=
  ⟨fun _ => Except.ok visSub, Except.ok none,
   fun _ _ => Except.ok ("c9", "/r/x/c9")⟩

/-- sys.argv of a live CLI reply invocation. -/
def argvLive : List String :=
  ["reddit_scanner.py", "reply", "p1", "hello", "--live"]

/-- The result of the live reply under replyBLive. -/
def outLive : ReplyResult × List NetCall :=
  reply_to_post envC replyBLive "p1" "hello" false

/-- A low-karma profile (10 link, 5 comment). -/
def meLow : MeData := ⟨"fish", 10, 5, 0, false⟩

/-- Warmup behaviour for meLow with an empty hot listing. -/
def warmB9 : WarmupBehavior := ⟨Except.ok (some meLow), fun _ => Except.ok [], 0⟩

/-- The profile of the C6 example: link 40, comment 15. -/
def me4015 : MeData := ⟨"fish", 40, 15, 0, false⟩

/-- Status behaviour delivering me4015. -/
def statusB6 : StatusBehavior := ⟨Except.ok (some me4015), 0⟩

/-- Status behaviour whose profile fetch raises. -/
def statusBoom : StatusBehavior := ⟨Except.error "boom", 0⟩

/-- Status behaviour whose profile fetch returns None (read-only). -/
def statusBNone : StatusBehavior := ⟨Except.ok none, 0⟩

/-- A submission with no comments at all. -/
def emptySub : SubmissionData := ⟨"T3", "/r/x/p3", CommentForest.nil⟩

/-- Reply behaviour with alice authenticated, no prior comment of hers
on the post, and a submission call that raises. -/
def replyBSubmitBoom : ReplyBehavior :=
  ⟨fun _ => Except.ok emptySub, Except.ok (some "alice"),
   fun _ _ => Except.error "boom submit"⟩

/-! Helper lemmas. -/

/-- Membership is preserved by the scan sort. -/
theorem mem_sortByRecency {x : ScanEntry} {l : List ScanEntry} :
    x ∈ sortByRecency l ↔ x ∈ l :=
  List.mem_insertionSort entryGE

/-- The scan sort output is pairwise non-increasing in the sort key. -/
theorem sorted_sortByRecency (l : List ScanEntry) :
    (sortByRecency l).Pairwise entryGE :=
  List.sorted_insertionSort entryGE l

/-- With credentials configured, scan_opportunities is the sorted
concatenation of the per-subreddit results plus one fetch per
subreddit. -/
theorem scan_entries_eq (env : Env) (b : ScanBehavior)
    (subs kws : Option (List String)) (limit : Nat) (cfg : RedditCfg)
    (hcfg : get_reddit env = some cfg) :
    scan_opportunities env b subs kws limit =
      (ScanOutput.list
        (sortByRecency
          ((pyOrList subs DEFAULT_SUBS).flatMap
            (scanSub b (pyOrList kws PAIN_KEYWORDS) limit))),
       (pyOrList subs DEFAULT_SUBS).map (fun s => NetCall.fetchNew s limit)) := by
  unfold scan_opportunities
  rw [hcfg]

/-- A record lacking the timestamp key sorts with key 0. -/
theorem entryKey_eq_zero_of_not_hasTimestamp {x : ScanEntry}
    (h : hasTimestamp x = false) : entryKey x = 0 := by
  cases x with
  | post r => simp [hasTimestamp] at h
  | error m => rfl

/-- Characterization of the post entries produced for one subreddit. -/
theorem mem_scanSub_post {b : ScanBehavior} {kws : List String} {limit : Nat}
    {s : String} {r : PostRecord} :
    ScanEntry.post r ∈ scanSub b kws limit s ↔
      ∃ p ∈ (b.fetch_new s limit).1,
        matchedKeywords kws p ≠ [] ∧
        r = mkRecord b.now s p (matchedKeywords kws p) := by
  unfold scanSub
  rw [List.mem_append]
  constructor
  · rintro (h | h)
    · rw [List.mem_filterMap] at h
      obtain ⟨p, hp, hf⟩ := h
      by_cases hm : (matchedKeywords kws p).isEmpty
      · rw [if_pos hm] at hf
        exact absurd hf (by simp)
      · rw [if_neg hm] at hf
        injection hf with hf1
        injection hf1 with hf2
        exact ⟨p, hp, by simpa [List.isEmpty_iff] using hm, hf2.symm⟩
    · exfalso
      rcases hsnd : (b.fetch_new s limit).2 with _ | e <;> rw [hsnd] at h
      · exact absurd h (List.not_mem_nil _)
      · simp at h
  · rintro ⟨p, hp, hne, rfl⟩
    left
    rw [List.mem_filterMap]
    refine ⟨p, hp, ?_⟩
    rw [if_neg (by simpa [List.isEmpty_iff] using hne)]

/-- A raised subreddit fetch contributes its inline error entry. -/
theorem error_mem_scanSub {b : ScanBehavior} {kws : List String} {limit : Nat}
    {s e : String} (h : (b.fetch_new s limit).2 = some e) :
    ScanEntry.error (scanErrorMsg s e) ∈ scanSub b kws limit s := by
  unfold scanSub
  rw [List.mem_append, h]
  right
  exact List.mem_singleton.mpr rfl

/-! Claim theorems. -/

/-- C4: if the client id or the client secret is absent from the
environment, each of the four operations returns its error object and
performs no network call. -/
theorem C4_unconfigured (env : Env)
    (h : env.client_id = none ∨ env.client_secret = none) :
    (∀ b subs kws limit, scan_opportunities env b subs kws limit =
        (ScanOutput.errObj scanUnconfiguredMsg, [])) ∧
    (∀ b pid txt dr, reply_to_post env b pid txt dr =
        (ReplyResult.error "Reddit credentials not configured.", [])) ∧
    (∀ b, warmup_actions env b =
        (WarmupResult.error "Reddit credentials not configured.", [])) ∧
    (∀ b, check_status env b =
        (StatusResult.error "Reddit credentials not configured.", [])) := by
  have hred : get_reddit env = none := by
    rcases h with h | h <;> simp [get_reddit, truthy, h]
  exact ⟨fun b subs kws limit => by simp [scan_opportunities, hred],
    fun b pid txt dr => by simp [reply_to_post, hred],
    fun b => by simp [warmup_actions, hred],
    fun b => by simp [check_status, hred]⟩

/-- C4 witness: with the client id absent, check_status returns the
error object and an empty network trace. -/
theorem C4_unconfigured_witness :
    check_status envMissing statusBNone =
      (StatusResult.error "Reddit credentials not configured.", []) :=
  (C4_unconfigured envMissing (Or.inl rfl)).2.2.2 statusBNone

/-- C6: for an authenticated profile, check_status reports total_karma
as link karma plus comment karma, and ready_for_action exactly when
comment karma is at least 50, computed from comment karma alone. -/
theorem C6_status_karma (env : Env) (b : StatusBehavior) (cfg : RedditCfg)
    (m : MeData) (hcfg : get_reddit env = some cfg)
    (hme : b.me = Except.ok (some m)) :
    (check_status env b).1 =
      StatusResult.ok m.name m.link_karma m.comment_karma
        (m.link_karma + m.comment_karma) ((b.now - m.created_utc) / 86400)
        m.has_verified_email (decide (50 ≤ m.comment_karma)) := by
  unfold check_status
  rw [hcfg, hme]

/-- C6 witness: link 40, comment 15 yields total_karma 55 and
ready_for_action false. -/
theorem C6_status_karma_witness :
    (check_status envC statusB6).1 =
      StatusResult.ok "fish" 40 15 55 0 false false :=
  C6_status_karma envC statusB6 cfgC me4015 rfl rfl

/-- C9: counterexample — with combined karma 15 (below 100), the warmup
suggestion is the script string, which is not the string the claim
names; the high-karma string likewise differs from the claimed one. -/
theorem C9_counterexample :
    warmupKarma (some meLow) < 100 ∧
    (warmup_actions envC warmB9).1 =
      WarmupResult.ok "fish" 15 0 0 buildKarmaMsg ∧
    buildKarmaMsg ≠ "build karma via genuine comments" ∧
    readyMsg ≠ "ready for targeted replies" :=
  ⟨by decide, rfl, by decide, by decide⟩

/-- C9 (amended): for an authenticated account the warmup result carries
the suggestion string "Comment on these posts with genuine value to
build karma" exactly when combined (link plus comment) karma is below
100, and otherwise the distinct string "Ready for targeted replies". -/
theorem C9_suggestion (env : Env) (b : WarmupBehavior) (cfg : RedditCfg)
    (m : MeData) (hp : List HotPost) (hcfg : get_reddit env = some cfg)
    (hme : b.me = Except.ok (some m)) (hhot : b.hot 5 = Except.ok hp) :
    (warmup_actions env b).1 =
      WarmupResult.ok m.name (m.link_karma + m.comment_karma)
        ((b.now - m.created_utc) / 86400) hp.length
        (if m.link_karma + m.comment_karma < 100 then buildKarmaMsg
         else readyMsg) ∧
    buildKarmaMsg ≠ readyMsg := by
  constructor
  · unfold warmup_actions
    rw [hcfg, hme, hhot]
    simp [warmupKarma]
  · decide

/-- C9 witness: a below-100 account receives the low-karma suggestion. -/
theorem C9_suggestion_witness :
    (warmup_actions envC warmB9).1 =
      WarmupResult.ok "fish" 15 0 0 buildKarmaMsg ∧
    buildKarmaMsg ≠ readyMsg :=
  C9_suggestion envC warmB9 cfgC meLow [] rfl rfl rfl

/-- C10: counterexample — the default keyword list has nineteen
entries, not the eighteen the claim states. -/
theorem C10_counterexample :
    PAIN_KEYWORDS.length = 19 ∧ ¬(PAIN_KEYWORDS.length = 18) := by
  decide

/-- C10 (amended): an empty subreddit or keyword list is falsy in
Python and selects the default exactly as None does, so the scan
behaves identically; the defaults are the eight subreddits and the
nineteen keywords. -/
theorem C10_empty_defaults (env : Env) (b : ScanBehavior)
    (subs kws : Option (List String)) (limit : Nat) :
    scan_opportunities env b (some []) kws limit =
      scan_opportunities env b none kws limit ∧
    scan_opportunities env b subs (some []) limit =
      scan_opportunities env b subs none limit ∧
    DEFAULT_SUBS.length = 8 ∧ PAIN_KEYWORDS.length = 19 :=
  ⟨rfl, rfl, rfl, rfl⟩

/-- Dry-run and replied-status analysis of reply_to_post: on a dry-run
invocation every network call of the trace is non-mutating, and a
replied result can only arise with the dry-run flag cleared. -/
theorem reply_master (env : Env) (b : ReplyBehavior) (pid txt : String)
    (dr : Bool) :
    (dr = true → ∀ c ∈ (reply_to_post env b pid txt dr).2,
      c.isMutation = false) ∧
    (∀ a cid u, (reply_to_post env b pid txt dr).1 =
      ReplyResult.replied a cid u → dr = false) := by
  unfold reply_to_post
  split
  · refine ⟨?_, ?_⟩
    · rintro rfl c hc
      simp at hc
    · intro a cid u hrep
      simp at hrep
  · split
    · refine ⟨?_, ?_⟩
      · rintro rfl c hc
        simp at hc
        simp [hc, NetCall.isMutation]
      · intro a cid u hrep
        simp at hrep
    · split
      · refine ⟨?_, ?_⟩
        · rintro rfl c hc
          simp at hc
          rcases hc with rfl | rfl <;> rfl
        · intro a cid u hrep
          simp at hrep
      · split
        · refine ⟨?_, ?_⟩
          · rintro rfl c hc
            simp at hc
            rcases hc with rfl | rfl <;> rfl
          · intro a cid u hrep
            simp at hrep
        · split
          · refine ⟨?_, ?_⟩
            · rintro rfl c hc
              simp at hc
              rcases hc with rfl | rfl <;> rfl
            · intro a cid u hrep
              simp at hrep
          · rename_i hdry
            refine ⟨?_, ?_⟩
            · rintro rfl
              exact absurd rfl hdry
            · intro a cid u hrep
              cases dr with
              | false => rfl
              | true => exact absurd rfl hdry

/-- C2: counterexample — the authenticated account (alice) has a
comment on the post, but only behind a MoreComments placeholder; the
fully expanded tree contains it, yet replace_more(limit=0) removes the
placeholder without expanding it, so the executor does not return
skipped: it returns a dry_run preview (and in live mode would post). -/
theorem C2_counterexample :
    (fullAuthors hiddenSub.comments).any (authorIs "alice") = true ∧
    replyBHidden.me = Except.ok (some "alice") ∧
    (reply_to_post envC replyBHidden "p1" "hello" true).1 =
      ReplyResult.dryRun "T1" "https://reddit.com/r/x/p1" "hello" ∧
    (reply_to_post envC replyBHidden "p1" "hello" true).1 ≠
      ReplyResult.skipped "already_replied" :=
  ⟨rfl, rfl, rfl, by decide⟩

/-- C2 (amended): if the comment tree visible after
replace_more(limit=0) — placeholders removed, not expanded — contains a
comment authored by the authenticated account, the executor returns
skipped and performs no network mutation; in particular two invocations
with the same post id against the same remote state (which no mutation
changed) both return skipped and neither trace contains a mutation. -/
theorem C2_skip_idempotent (env : Env) (b : ReplyBehavior)
    (pid txt : String) (dr : Bool) (cfg : RedditCfg) (sub : SubmissionData)
    (meName : String) (hcfg : get_reddit env = some cfg)
    (hsub : b.submission pid = Except.ok sub)
    (hme : b.me = Except.ok (some meName))
    (hvis : (visibleAuthors sub.comments).any (authorIs meName) = true) :
    (reply_to_post env b pid txt dr).1 = ReplyResult.skipped "already_replied" ∧
    (∀ c ∈ (reply_to_post env b pid txt dr).2 ++
        (reply_to_post env b pid txt dr).2, c.isMutation = false) := by
  have heq : reply_to_post env b pid txt dr =
      (ReplyResult.skipped "already_replied",
       [NetCall.fetchSubmission pid, NetCall.fetchMe]) := by
    unfold reply_to_post
    rw [hcfg, hsub, hme]
    simp [hvis]
  rw [heq]
  refine ⟨rfl, ?_⟩
  intro c hc
  simp at hc
  rcases hc with rfl | rfl | rfl | rfl <;> rfl

/-- C2 witness: alice already commented visibly, so the reply is
skipped twice with no mutation. -/
theorem C2_skip_idempotent_witness :
    (reply_to_post envC replyBVis "p2" "hi" true).1 =
      ReplyResult.skipped "already_replied" ∧
    (∀ c ∈ (reply_to_post envC replyBVis "p2" "hi" true).2 ++
        (reply_to_post envC replyBVis "p2" "hi" true).2,
      c.isMutation = false) :=
  C2_skip_idempotent envC replyBVis "p2" "hi" true cfgC visSub "alice"
    rfl rfl rfl rfl

/-- C3: a dry-run reply performs no comment submission (no network
mutation); a replied result forces the dry-run flag off; and through
the CLI a replied result can only arise when --live is among the
arguments, the sole way the dispatcher clears the flag. -/
theorem C3_dry_run_live (env : Env) (b : ReplyBehavior) (pid txt : String) :
    (∀ c ∈ (reply_to_post env b pid txt true).2, c.isMutation = false) ∧
    (∀ dr a cid u, (reply_to_post env b pid txt dr).1 =
        ReplyResult.replied a cid u → dr = false) ∧
    (∀ argv out, cliReply env b argv = some out →
      ∀ a cid u, out.1 = ReplyResult.replied a cid u → "--live" ∈ argv) := by
  refine ⟨(reply_master env b pid txt true).1 rfl,
          fun dr => (reply_master env b pid txt dr).2, ?_⟩
  intro argv out hcli a cid u hrep
  unfold cliReply at hcli
  split at hcli
  · split at hcli
    · exact absurd hcli (by simp)
    · injection hcli with hout
      rw [← hout] at hrep
      have hdr := (reply_master env b (argv.getD 2 "") (argv.getD 3 "")
        (!(argv.contains "--live"))).2 a cid u hrep
      have hcon : argv.contains "--live" = true := by
        cases hc : argv.contains "--live" with
        | false => rw [hc] at hdr; simp at hdr
        | true => rfl
      exact List.elem_iff.mp hcon
  · exact absurd hcli (by simp)

/-- C3 witness: a live CLI invocation that produced a replied result
indeed carries --live among its arguments. -/
theorem C3_dry_run_live_witness : "--live" ∈ argvLive :=
  (C3_dry_run_live envC replyBLive "p1" "hello").2.2 argvLive outLive rfl
    "p1" "c9" "https://reddit.com/r/x/c9" rfl

/-- C7: with credentials configured, no operation lets an exception of
the API client escape: a scan always returns a list (per-subreddit
failures stay inline), and every exception raised inside an operation
boundary surfaces as the error variant carrying the raised message,
whose serialization is an object with an error string. -/
theorem C7_error_boundary (env : Env) (cfg : RedditCfg)
    (hcfg : get_reddit env = some cfg) :
    (∀ b subs kws limit, ∃ entries,
        (scan_opportunities env b subs kws limit).1 =
          ScanOutput.list entries) ∧
    (∀ b pid txt dr e, b.submission pid = Except.error e →
        (reply_to_post env b pid txt dr).1 = ReplyResult.error e) ∧
    (∀ b pid txt dr sub e, b.submission pid = Except.ok sub →
        b.me = Except.error e →
        (reply_to_post env b pid txt dr).1 = ReplyResult.error e) ∧
    (∀ b pid txt meOpt sub e, b.submission pid = Except.ok sub →
        b.me = Except.ok meOpt →
        (match meOpt with
         | some meName => (visibleAuthors sub.comments).any (authorIs meName)
         | none => false) = false →
        b.submit pid txt = Except.error e →
        (reply_to_post env b pid txt false).1 = ReplyResult.error e) ∧
    (∀ b e, b.me = Except.error e →
        (warmup_actions env b).1 = WarmupResult.error e) ∧
    (∀ (b : WarmupBehavior) meOpt e, b.me = Except.ok meOpt →
        b.hot 5 = Except.error e →
        (warmup_actions env b).1 = WarmupResult.error e) ∧
    (∀ (b : StatusBehavior) e, b.me = Except.error e →
        (check_status env b).1 = StatusResult.error e) ∧
    (∀ (b : StatusBehavior), b.me = Except.ok none →
        (check_status env b).1 = StatusResult.error noneTypeMsg) ∧
    (∀ m, ReplyResult.toJson (ReplyResult.error m) =
        Json.obj [("error", Json.str m)]) ∧
    (∀ m, WarmupResult.toJson (WarmupResult.error m) =
        Json.obj [("error", Json.str m)]) ∧
    (∀ m, StatusResult.toJson (StatusResult.error m) =
        Json.obj [("error", Json.str m)]) ∧
    (∀ m, ScanEntry.toJson (ScanEntry.error m) =
        Json.obj [("error", Json.str m)]) := by
  refine ⟨?_, ?_, ?_, ?_, ?_, ?_, ?_, ?_,
    fun m => rfl, fun m => rfl, fun m => rfl, fun m => rfl⟩
  · intro b subs kws limit
    exact ⟨_, by rw [scan_entries_eq env b subs kws limit cfg hcfg]⟩
  · intro b pid txt dr e hsub
    unfold reply_to_post
    rw [hcfg, hsub]
  · intro b pid txt dr sub e hsub hme
    unfold reply_to_post
    rw [hcfg, hsub, hme]
  · intro b pid txt meOpt sub e hsub hme hdup hsubmit
    unfold reply_to_post
    rw [hcfg, hsub, hme]
    simp [hdup, hsubmit]
  · intro b e hme
    unfold warmup_actions
    rw [hcfg, hme]
  · intro b meOpt e hme hhot
    unfold warmup_actions
    rw [hcfg, hme, hhot]
  · intro b e hme
    unfold check_status
    rw [hcfg, hme]
  · intro b hme
    unfold check_status
    rw [hcfg, hme]

/-- C7 witness: an authenticated live reply with no prior comment whose
submission call raises surfaces as a reply error object. -/
theorem C7_error_boundary_witness :
    (reply_to_post envC replyBSubmitBoom "p3" "hi" false).1 =
      ReplyResult.error "boom submit" :=
  (C7_error_boundary envC cfgC rfl).2.2.2.1 replyBSubmitBoom "p3" "hi"
    (some "alice") emptySub "boom submit" rfl rfl rfl rfl

/-- Claim wording (for comparison with the code): kw occurs as a
case-insensitive substring of s. -/
def occursCaseInsensitive (kw s : String) : Bool :=
  strContains (lowerStr s) (lowerStr kw)

/-- The record the scanner emits for postIneed under keyword list
["need"]. -/
def recIneed : PostRecord := mkRecord 1000 "s1" postIneed ["need"]

/-- The scan output entries for scanB1 over [s1] with keyword need. -/
def entriesW1 : List ScanEntry := [ScanEntry.post recIneed]

/-- C1: counterexample — the keyword "I NEED" occurs case-insensitively
in the title-space-body of postIneed, so the claim requires the post in
the scan output; but the script lower-cases only the text, never the
keyword, so the post does not match and the output is empty. -/
theorem C1_counterexample :
    occursCaseInsensitive "I NEED"
      (postIneed.title ++ " " ++ (postIneed.selftext.getD "")) = true ∧
    (scan_opportunities envC scanB1 (some ["s1"]) (some ["I NEED"]) 25).1 =
      ScanOutput.list [] :=
  ⟨rfl, rfl⟩

/-- C1 (amended): with K the effective keyword list, a post record is
in the scan output iff some keyword of K occurs verbatim as a substring
of the lower-cased title-space-body of a fetched post, and the record
carries as keywords_matched exactly the keywords of K that so occur
(the keywords themselves are not lower-cased, so matching is
case-insensitive only for keywords without upper-case letters). -/
theorem C1_scan_membership (env : Env) (b : ScanBehavior)
    (subs kws : Option (List String)) (limit : Nat) (cfg : RedditCfg)
    (entries : List ScanEntry) (r : PostRecord)
    (hcfg : get_reddit env = some cfg)
    (hout : (scan_opportunities env b subs kws limit).1 =
      ScanOutput.list entries) :
    ScanEntry.post r ∈ entries ↔
      ∃ s ∈ pyOrList subs DEFAULT_SUBS, ∃ p ∈ (b.fetch_new s limit).1,
        (pyOrList kws PAIN_KEYWORDS).filter
          (fun kw => strContains (lowerText p) kw) ≠ [] ∧
        r = mkRecord b.now s p
          ((pyOrList kws PAIN_KEYWORDS).filter
            (fun kw => strContains (lowerText p) kw)) := by
  rw [scan_entries_eq env b subs kws limit cfg hcfg] at hout
  have hout2 : ScanOutput.list (sortByRecency
      ((pyOrList subs DEFAULT_SUBS).flatMap
        (scanSub b (pyOrList kws PAIN_KEYWORDS) limit))) =
      ScanOutput.list entries := hout
  injection hout2 with he
  subst he
  rw [mem_sortByRecency, List.mem_flatMap]
  constructor
  · rintro ⟨s, hs, hmem⟩
    obtain ⟨p, hp, hne, hr⟩ := mem_scanSub_post.mp hmem
    exact ⟨s, hs, p, hp, hne, hr⟩
  · rintro ⟨s, hs, p, hp, hne, hr⟩
    exact ⟨s, hs, mem_scanSub_post.mpr ⟨p, hp, hne, hr⟩⟩

/-- C1 witness: the all-lower-case keyword "need" matches postIneed, so
its record is in the output. -/
theorem C1_scan_membership_witness :
    ScanEntry.post recIneed ∈ entriesW1 :=
  (C1_scan_membership envC scanB1 (some ["s1"]) (some ["need"]) 25 cfgC
      entriesW1 recIneed rfl rfl).mpr
    ⟨"s1", by decide, postIneed, by decide, by decide, by decide⟩

/-- C5: counterexample — subreddit bad fails (its error record has no
created_utc key) and subreddit good delivers a matching post with
created_utc equal to 0; the stable descending sort keys both at 0 and
keeps insertion order, so the record lacking a timestamp precedes a
record that has one, contradicting the claim that such records appear
after all timestamped records. -/
theorem C5_counterexample :
    (scan_opportunities envC scanB5 (some ["bad", "good"]) (some ["x"]) 25).1 =
      ScanOutput.list entriesW5 ∧
    entriesW5 =
      [ScanEntry.error (scanErrorMsg "bad" "boom"), ScanEntry.post recX] ∧
    hasTimestamp (ScanEntry.error (scanErrorMsg "bad" "boom")) = false ∧
    hasTimestamp (ScanEntry.post recX) = true :=
  ⟨rfl, rfl, rfl, rfl⟩

/-- C5 (amended): the scan output is pairwise non-increasing in the
sort key (created_utc, defaulting to 0 for records without the key);
consequently a record lacking a timestamp is followed only by records
whose key is at most 0, i.e. it appears after every record with a
positive timestamp, though records with timestamp at most 0 may still
follow it. -/
theorem C5_sorted (env : Env) (b : ScanBehavior)
    (subs kws : Option (List String)) (limit : Nat) (cfg : RedditCfg)
    (entries : List ScanEntry) (hcfg : get_reddit env = some cfg)
    (hout : (scan_opportunities env b subs kws limit).1 =
      ScanOutput.list entries) :
    entries.Pairwise entryGE ∧
    entries.Pairwise (fun a c => hasTimestamp a = false → entryKey c ≤ 0) := by
  rw [scan_entries_eq env b subs kws limit cfg hcfg] at hout
  have hout2 : ScanOutput.list (sortByRecency
      ((pyOrList subs DEFAULT_SUBS).flatMap
        (scanSub b (pyOrList kws PAIN_KEYWORDS) limit))) =
      ScanOutput.list entries := hout
  injection hout2 with he
  subst he
  refine ⟨sorted_sortByRecency _, List.Pairwise.imp ?_ (sorted_sortByRecency _)⟩
  intro a c hge hts
  have hge2 : entryKey c ≤ entryKey a := hge
  rw [entryKey_eq_zero_of_not_hasTimestamp hts] at hge2
  exact hge2

/-- C5 witness: the concrete output above is indeed sorted in this
sense. -/
theorem C5_sorted_witness :
    entriesW5.Pairwise entryGE ∧
    entriesW5.Pairwise (fun a c => hasTimestamp a = false → entryKey c ≤ 0) :=
  C5_sorted envC scanB5 (some ["bad", "good"]) (some ["x"]) 25 cfgC
    entriesW5 rfl rfl

/-- C8: a failing subreddit fetch is converted to an inline error
record tagged with that subreddit name, and every subreddit of the list
(in particular every remaining one) still contributes its matching
posts to the output: the failure does not abort the scan. -/
theorem C8_failure_isolated (env : Env) (b : ScanBehavior)
    (subs kws : Option (List String)) (limit : Nat) (cfg : RedditCfg)
    (entries : List ScanEntry) (hcfg : get_reddit env = some cfg)
    (hout : (scan_opportunities env b subs kws limit).1 =
      ScanOutput.list entries) :
    (∀ s ∈ pyOrList subs DEFAULT_SUBS, ∀ e, (b.fetch_new s limit).2 = some e →
        ScanEntry.error (scanErrorMsg s e) ∈ entries) ∧
    (∀ s ∈ pyOrList subs DEFAULT_SUBS, ∀ p ∈ (b.fetch_new s limit).1,
        matchedKeywords (pyOrList kws PAIN_KEYWORDS) p ≠ [] →
        ScanEntry.post
          (mkRecord b.now s p
            (matchedKeywords (pyOrList kws PAIN_KEYWORDS) p)) ∈ entries) := by
  rw [scan_entries_eq env b subs kws limit cfg hcfg] at hout
  have hout2 : ScanOutput.list (sortByRecency
      ((pyOrList subs DEFAULT_SUBS).flatMap
        (scanSub b (pyOrList kws PAIN_KEYWORDS) limit))) =
      ScanOutput.list entries := hout
  injection hout2 with he
  subst he
  constructor
  · intro s hs e hsnd
    rw [mem_sortByRecency, List.mem_flatMap]
    exact ⟨s, hs, error_mem_scanSub hsnd⟩
  · intro s hs p hp hne
    rw [mem_sortByRecency, List.mem_flatMap]
    exact ⟨s, hs, mem_scanSub_post.mpr ⟨p, hp, hne, rfl⟩⟩

/-- C8 witness: with subreddit bad raising and subreddit good matching,
the output holds both the tagged error record and the good record. -/
theorem C8_failure_isolated_witness :
    ScanEntry.error (scanErrorMsg "bad" "boom") ∈ entriesW5 ∧
    ScanEntry.post recX ∈ entriesW5 := by
  have h := C8_failure_isolated envC scanB5 (some ["bad", "good"])
    (some ["x"]) 25 cfgC entriesW5 rfl rfl
  exact ⟨h.1 "bad" (by decide) "boom" rfl,
    h.2 "good" (by decide) postX (by decide) (by decide)⟩

end RedditScanner
